import Mathlib

/-!
Shallow embedding of the CloudSqlConsole server core — the read-only SQL
classifier, the role permission gate, the session authenticator, the
storage layer and the pagination rewriter — together with theorems that
settle the frozen claims about this code.

Strings are modelled as `List Char` (via `String.data`); the JavaScript
regular expressions of the source are translated into explicit scanning
functions whose doc comments name the regex they embed.
-/

namespace CloudSql

/-- Characters matched by the JavaScript regex class `\s`, which is also the
set removed by `String.prototype.trim`: tab, LF, VT, FF, CR, space, NBSP,
and the Unicode space separators, line separators and BOM. -/
def isJsSpace (c : Char) : Bool :=
  c == ' ' || c == '\t' || c == '\n' || c.toNat == 11 || c.toNat == 12 || c == '\r' ||
  c.toNat == 160 || c.toNat == 5760 ||
  (8192 ≤ c.toNat && c.toNat ≤ 8202) ||
  c.toNat == 8232 || c.toNat == 8233 || c.toNat == 8239 ||
  c.toNat == 8287 || c.toNat == 12288 || c.toNat == 65279

/-- JavaScript line terminators (the characters `.` does not match and the
positions where a multiline `$` matches): LF, CR, U+2028, U+2029. -/
def isLineTerm (c : Char) : Bool :=
  c == '\n' || c == '\r' || c.toNat == 8232 || c.toNat == 8233

/-- Characters matched by the JavaScript regex class `\w`
(relevant to the `\b` word boundary): ASCII letters, digits, underscore. -/
def isWordChar (c : Char) : Bool :=
  ('A' ≤ c && c ≤ 'Z') || ('a' ≤ c && c ≤ 'z') || ('0' ≤ c && c ≤ '9') || c == '_'

/-- ASCII behaviour of JavaScript `String.prototype.toUpperCase`, applied
character by character (all keywords the classifier looks for are ASCII). -/
def upChar (c : Char) : Char :=
  match c with
  | 'a' => 'A' | 'b' => 'B' | 'c' => 'C' | 'd' => 'D' | 'e' => 'E' | 'f' => 'F'
  | 'g' => 'G' | 'h' => 'H' | 'i' => 'I' | 'j' => 'J' | 'k' => 'K' | 'l' => 'L'
  | 'm' => 'M' | 'n' => 'N' | 'o' => 'O' | 'p' => 'P' | 'q' => 'Q' | 'r' => 'R'
  | 's' => 'S' | 't' => 'T' | 'u' => 'U' | 'v' => 'V' | 'w' => 'W' | 'x' => 'X'
  | 'y' => 'Y' | 'z' => 'Z'
  | other => other

/-- Scan for the first `*/` and return what follows it (the lazy part of the
regex `\/\*[\s\S]*?\*\//g`); `none` when the comment is unterminated. -/
def dropToClose : List Char → Option (List Char)
  | [] => none
  | [_] => none
  | a :: b :: rest => if a == '*' && b == '/' then some rest else dropToClose (b :: rest)

/-- Worker for `stripBlock`. The fuel only bounds the recursion (each step
consumes at least one character, so `l.length` fuel is always enough);
the zero case is unreachable for that fuel. Embeds the global replacement
`replace(/\/\*[\s\S]*?\*\//g, '')`: at each `/*`, drop up to and including
the first following `*/`; an unterminated `/*` is left in place. -/
def stripBlockGo : Nat → List Char → List Char
  | _, [] => []
  | Nat.succ fuel, '/' :: '*' :: rest =>
    match dropToClose rest with
    | some rest2 => stripBlockGo fuel rest2
    | none => '/' :: '*' :: rest
  | Nat.succ fuel, c :: rest => c :: stripBlockGo fuel rest
  | 0, l => l

/-- Remove `/* ... */` block comments, as `replace(/\/\*[\s\S]*?\*\//g, '')`. -/
def stripBlock (l : List Char) : List Char :=
  stripBlockGo l.length l

/-- Worker for `stripLine`, with the same fuel convention as `stripBlockGo`.
Embeds the global multiline replacement of the pattern “two dashes then `.*$`”
by the empty string: from each pair of dashes, drop every character up to
(but not including) the next line terminator. -/
def stripLineGo : Nat → List Char → List Char
  | _, [] => []
  | Nat.succ fuel, '-' :: '-' :: rest =>
    stripLineGo fuel (rest.dropWhile (fun c => !isLineTerm c))
  | Nat.succ fuel, c :: rest => c :: stripLineGo fuel rest
  | 0, l => l

/-- Remove line comments (two dashes to end of line), the second replace of
`isReadOnlyQuery`. -/
def stripLine (l : List Char) : List Char :=
  stripLineGo l.length l

/-- Collapse every maximal run of whitespace into a single space,
as `replace(/\s+/g, ' ')`. -/
def collapseWs : List Char → List Char
  | [] => []
  | [c] => if isJsSpace c then [' '] else [c]
  | c :: d :: rest =>
    if isJsSpace c && isJsSpace d then collapseWs (d :: rest)
    else (if isJsSpace c then ' ' else c) :: collapseWs (d :: rest)

/-- `String.prototype.trim`: drop leading and trailing whitespace. -/
def trimWs (l : List Char) : List Char :=
  ((l.dropWhile isJsSpace).reverse.dropWhile isJsSpace).reverse

/-- `begins pat l` is true when `pat` is literally the first `pat.length`
characters of `l` (an anchored literal match). -/
def begins : List Char → List Char → Bool
  | [], _ => true
  | _ :: _, [] => false
  | a :: as, b :: bs => a == b && begins as bs

/-- The anchored regex `^KW\s`: the keyword, immediately followed by one
whitespace character. -/
def kwThenSpace (kw l : List Char) : Bool :=
  begins kw l &&
    match l.drop kw.length with
    | [] => false
    | c :: _ => isJsSpace c

def selectKw : List Char := ['S', 'E', 'L', 'E', 'C', 'T']

def explainKw : List Char := ['E', 'X', 'P', 'L', 'A', 'I', 'N']

def describeKw : List Char := ['D', 'E', 'S', 'C', 'R', 'I', 'B', 'E']

def showKw : List Char := ['S', 'H', 'O', 'W']

def withKw : List Char := ['W', 'I', 'T', 'H']

/-- The `.*SELECT\s` part of `^WITH\s.*SELECT\s`: scanning forward over
non-line-terminator characters (`.`), is there an occurrence of `SELECT`
followed by a whitespace character? -/
def scanSelectSpace : List Char → Bool
  | [] => false
  | c :: rest => kwThenSpace selectKw (c :: rest) || (!isLineTerm c && scanSelectSpace rest)

/-- The anchored regex `^WITH\s.*SELECT\s`. -/
def withSelectTest (l : List Char) : Bool :=
  begins withKw l &&
    match l.drop 4 with
    | [] => false
    | c :: rest => isJsSpace c && scanSelectSpace rest

/-- One keyword of the alternation, matched at the head of `l` with its
trailing `\b`: the characters of `kw`, then end of input or a non-word
character. (Every keyword starts and ends with a word character, so the
boundaries degenerate to word/non-word tests on the neighbours.) -/
def wordAt (kw l : List Char) : Bool :=
  begins kw l &&
    match l.drop kw.length with
    | [] => true
    | c :: _ => !isWordChar c

def writeKws : List (List Char) :=
  [['I', 'N', 'S', 'E', 'R', 'T'],
   ['U', 'P', 'D', 'A', 'T', 'E'],
   ['D', 'E', 'L', 'E', 'T', 'E'],
   ['D', 'R', 'O', 'P'],
   ['C', 'R', 'E', 'A', 'T', 'E'],
   ['A', 'L', 'T', 'E', 'R'],
   ['T', 'R', 'U', 'N', 'C', 'A', 'T', 'E'],
   ['R', 'E', 'P', 'L', 'A', 'C', 'E']]

/-- Unanchored search for `\b(KW1|KW2|...)\b`; the Bool argument records
whether the previous character was a word character (false at the start
of input), which decides the leading `\b`. -/
def hasWordGo (kws : List (List Char)) : Bool → List Char → Bool
  | _, [] => false
  | prevW, c :: rest =>
    (!prevW && kws.any (fun kw => wordAt kw (c :: rest))) || hasWordGo kws (isWordChar c) rest

/-- The regex `\b(INSERT|UPDATE|DELETE|DROP|CREATE|ALTER|TRUNCATE|REPLACE)\b`
tested anywhere in the string. -/
def hasWriteWord (l : List Char) : Bool :=
  hasWordGo writeKws false l

/-- The normalization pipeline of `AuthService.isReadOnlyQuery`: strip block
comments, strip line comments, collapse whitespace, trim, uppercase. -/
def normalizeQuery (l : List Char) : List Char :=
  (trimWs (collapseWs (stripLine (stripBlock l)))).map upChar

/-- `AuthService.isReadOnlyQuery`: the normalized query must match one of the
read-only patterns (`^SELECT\s`, `^WITH\s.*SELECT\s`, `^EXPLAIN\s`,
`^DESCRIBE\s`, `^SHOW\s`) and must not contain a whole-word write keyword. -/
def isReadOnlyQuery (s : String) : Bool :=
  let n := normalizeQuery s.data
  (kwThenSpace selectKw n || withSelectTest n || kwThenSpace explainKw n ||
    kwThenSpace describeKw n || kwThenSpace showKw n) && !hasWriteWord n

/-- The claim reading of “the normalized text begins with KW”: the keyword as
a whole token, i.e. followed by whitespace or by the end of the text. -/
def beginsWord (kw l : List Char) : Bool :=
  begins kw l &&
    match l.drop kw.length with
    | [] => true
    | c :: _ => isJsSpace c

/-- The claim reading of the “… SELECT” part of “begins with WITH … SELECT”:
the token SELECT occurs somewhere later. -/
def scanSelectWord : List Char → Bool
  | [] => false
  | c :: rest => beginsWord selectKw (c :: rest) || scanSelectWord rest

/-- Claim C2 as written: after normalization the text begins with the token
SELECT, WITH … SELECT, EXPLAIN, DESCRIBE or SHOW, and contains no whole-word
write keyword. -/
def readOnlyPerClaim (s : String) : Bool :=
  let n := normalizeQuery s.data
  (beginsWord selectKw n || (beginsWord withKw n && scanSelectWord (n.drop 4)) ||
    beginsWord explainKw n || beginsWord describeKw n || beginsWord showKw n) &&
  !hasWriteWord n

/-- Occurrence of the literal text “SELECT ” (keyword plus one space). -/
def hasSelSp : List Char → Bool
  | [] => false
  | c :: rest => begins (selectKw ++ [' ']) (c :: rest) || hasSelSp rest

/-- Claim C2 as amended: each leading keyword must be followed by whitespace
(after normalization, by a single space), so a bare keyword with nothing
after it is not read-only. -/
def readOnlyAmended (s : String) : Bool :=
  let n := normalizeQuery s.data
  (begins (selectKw ++ [' ']) n ||
    (begins (withKw ++ [' ']) n && hasSelSp (n.drop 5)) ||
    begins (explainKw ++ [' ']) n || begins (describeKw ++ [' ']) n ||
    begins (showKw ++ [' ']) n) &&
  !hasWriteWord n

theorem lt_imp_space (c : Char) (h : isLineTerm c = true) : isJsSpace c = true := by
  unfold isLineTerm at h
  unfold isJsSpace
  simp only [Bool.or_eq_true] at h ⊢
  tauto

theorem space_upChar (c : Char) : isJsSpace (upChar c) = isJsSpace c := by
  unfold upChar
  split <;> rfl

theorem collapseWs_space :
    ∀ (l : List Char), ∀ c ∈ collapseWs l, isJsSpace c = true → c = ' ' := by
  intro l
  induction l with
  | nil => simp [collapseWs]
  | cons a as ih =>
    cases as with
    | nil =>
      intro c hc hsp
      by_cases ha : isJsSpace a = true
      · simp [collapseWs, ha] at hc
        exact hc
      · simp [collapseWs, ha] at hc
        rw [hc] at hsp
        exact absurd hsp ha
    | cons b bs =>
      intro c hc hsp
      by_cases hab : (isJsSpace a && isJsSpace b) = true
      · rw [show collapseWs (a :: b :: bs) = collapseWs (b :: bs) by
          simp only [collapseWs]
          rw [if_pos hab]] at hc
        exact ih c hc hsp
      · rw [show collapseWs (a :: b :: bs) =
            (if isJsSpace a then ' ' else a) :: collapseWs (b :: bs) by
          simp only [collapseWs]
          rw [if_neg hab]] at hc
        rcases List.mem_cons.mp hc with hc | hc
        · by_cases ha : isJsSpace a = true
          · simpa [ha] using hc
          · simp [ha] at hc
            rw [hc] at hsp
            exact absurd hsp ha
        · exact ih c hc hsp

theorem trimWs_subset (l : List Char) : trimWs l ⊆ l := by
  intro c hc
  unfold trimWs at hc
  rw [List.mem_reverse] at hc
  have hc2 := (List.dropWhile_sublist (l := (l.dropWhile isJsSpace).reverse)
    (p := isJsSpace)).subset hc
  rw [List.mem_reverse] at hc2
  exact (List.dropWhile_sublist (l := l) (p := isJsSpace)).subset hc2

theorem normalize_space (l : List Char) :
    ∀ c ∈ normalizeQuery l, isJsSpace c = true → c = ' ' := by
  intro c hc hsp
  unfold normalizeQuery at hc
  rw [List.mem_map] at hc
  obtain ⟨c0, hc0, rfl⟩ := hc
  rw [space_upChar] at hsp
  have h0 := trimWs_subset _ hc0
  have h1 := collapseWs_space _ c0 h0 hsp
  rw [h1]
  rfl

theorem begins_append_space (kw : List Char) :
    ∀ l : List Char,
      begins (kw ++ [' ']) l =
        (begins kw l &&
          match l.drop kw.length with
          | [] => false
          | c :: _ => ' ' == c) := by
  induction kw with
  | nil =>
    intro l
    cases l with
    | nil => rfl
    | cons b bs => simp [begins]
  | cons a as ih =>
    intro l
    cases l with
    | nil => simp [begins]
    | cons b bs =>
      simp only [List.cons_append, begins, List.length_cons, List.drop_succ_cons,
        List.append_eq, ih, Bool.and_assoc]

theorem kwThenSpace_eq (kw l : List Char)
    (h : ∀ c ∈ l, isJsSpace c = true → c = ' ') :
    kwThenSpace kw l = begins (kw ++ [' ']) l := by
  rw [kwThenSpace, begins_append_space]
  cases hd : l.drop kw.length with
  | nil => rfl
  | cons c t =>
    have hc : c ∈ l := List.drop_subset kw.length l (hd ▸ List.mem_cons_self c t)
    by_cases hsp : isJsSpace c = true
    · have hce := h c hc hsp
      subst hce
      simp [show isJsSpace ' ' = true from rfl]
    · have hne : (' ' == c) = false := by
        by_cases he : c = ' '
        · rw [he] at hsp
          exact absurd rfl hsp
        · simp
          exact fun hh => he hh.symm
      simp at hsp
      simp [hsp, hne]

theorem scanSelect_eq :
    ∀ l : List Char, (∀ c ∈ l, isJsSpace c = true → c = ' ') →
      scanSelectSpace l = hasSelSp l := by
  intro l
  induction l with
  | nil => intro _; rfl
  | cons c rest ih =>
    intro h
    have h1 : ∀ x ∈ rest, isJsSpace x = true → x = ' ' :=
      fun x hx => h x (List.mem_cons_of_mem c hx)
    have h2 : isLineTerm c = false := by
      by_cases hlt : isLineTerm c = true
      · have hsp := lt_imp_space c hlt
        have hce := h c (List.mem_cons_self c rest) hsp
        rw [hce] at hlt
        exact absurd hlt (by decide)
      · simpa using hlt
    have h3 := kwThenSpace_eq selectKw (c :: rest) h
    simp [scanSelectSpace, hasSelSp, h3, h2, ih h1]

theorem withSelect_eq (l : List Char)
    (h : ∀ c ∈ l, isJsSpace c = true → c = ' ') :
    withSelectTest l = (begins (withKw ++ [' ']) l && hasSelSp (l.drop 5)) := by
  rw [withSelectTest, begins_append_space]
  have hdd : (l.drop 4).drop 1 = l.drop 5 := by
    simp [List.drop_drop]
  cases hd : l.drop 4 with
  | nil =>
    have h5 : l.drop 5 = [] := by
      rw [← hdd, hd]
      rfl
    simp [withKw, hd, h5, hasSelSp]
  | cons c rest =>
    have hc : c ∈ l := List.drop_subset 4 l (hd ▸ List.mem_cons_self c rest)
    have h5 : l.drop 5 = rest := by
      rw [← hdd, hd]
      rfl
    have hrest : ∀ x ∈ rest, isJsSpace x = true → x = ' ' := by
      intro x hx
      exact h x (List.drop_subset 4 l (hd ▸ List.mem_cons_of_mem c hx))
    by_cases hsp : isJsSpace c = true
    · have hce := h c hc hsp
      subst hce
      simp [withKw, hd, h5, scanSelect_eq rest hrest,
        show isJsSpace ' ' = true from rfl]
    · have hne : (' ' == c) = false := by
        by_cases he : c = ' '
        · rw [he] at hsp
          exact absurd rfl hsp
        · simp
          exact fun hh => he hh.symm
      simp at hsp
      simp [withKw, hd, h5, hsp, hne]

/-- C2 (counterexample): the claim reads `isReadOnlyQuery` as accepting every
normalized text that begins with the token SELECT; but the source regex
`^SELECT\\s` demands a whitespace character after the keyword, so the bare
statement "SELECT" (normalized text exactly the token with nothing after it)
is classified not read-only although the claimed description accepts it. -/
theorem C2_counterexample :
    isReadOnlyQuery ("SELECT") = false ∧ readOnlyPerClaim ("SELECT") = true := by
  decide

/-- C2 (amended): `isReadOnlyQuery` agrees on every input string with the
claimed description once each leading keyword is required to be followed by
whitespace (after normalization, a single space): the normalized text must
begin with "SELECT ", "WITH " with a later occurrence of "SELECT ",
"EXPLAIN ", "DESCRIBE " or "SHOW ", and must contain no whole-word
occurrence of INSERT, UPDATE, DELETE, DROP, CREATE, ALTER, TRUNCATE or
REPLACE; an empty or whitespace-only statement is never read-only. -/
theorem C2_theorem : ∀ s : String, isReadOnlyQuery s = readOnlyAmended s := by
  intro s
  have hn := normalize_space s.data
  show ((kwThenSpace selectKw (normalizeQuery s.data) || withSelectTest (normalizeQuery s.data) ||
      kwThenSpace explainKw (normalizeQuery s.data) || kwThenSpace describeKw (normalizeQuery s.data) ||
      kwThenSpace showKw (normalizeQuery s.data)) && !hasWriteWord (normalizeQuery s.data)) =
    ((begins (selectKw ++ [' ']) (normalizeQuery s.data) ||
      (begins (withKw ++ [' ']) (normalizeQuery s.data) && hasSelSp ((normalizeQuery s.data).drop 5)) ||
      begins (explainKw ++ [' ']) (normalizeQuery s.data) ||
      begins (describeKw ++ [' ']) (normalizeQuery s.data) ||
      begins (showKw ++ [' ']) (normalizeQuery s.data)) && !hasWriteWord (normalizeQuery s.data))
  rw [kwThenSpace_eq selectKw _ hn, kwThenSpace_eq explainKw _ hn,
    kwThenSpace_eq describeKw _ hn, kwThenSpace_eq showKw _ hn, withSelect_eq _ hn]

/-! ## Data model (shared/schema.ts) and storage (PostgreSQLStorage)

Rows are modelled with the columns the claims touch; timestamps are `Nat`
milliseconds. Where the source draws on collaborators outside the store —
`bcrypt.compare`, `randomUUID`, the wall clock — the embedding takes them
as explicit arguments (`verify`, fresh ids/tokens, `now`). -/

/-- A row of the `users` table. -/
structure User where
  id : String
  username : String
  passwordHash : String
  role : String
  isActive : Bool
  createdAt : Nat
  updatedAt : Nat
deriving DecidableEq

/-- A row of the `connections` table (`type` is the engine kind). -/
structure Connection where
  id : String
  name : String
  type : String
  host : String
  port : Nat
  database : String
  username : String
  password : String
  ssl : Bool
  isActive : Bool
  createdAt : Nat
deriving DecidableEq

/-- A row of the `user_sessions` table. -/
structure UserSession where
  id : String
  userId : String
  sessionToken : String
  expiresAt : Nat
  createdAt : Nat
deriving DecidableEq

/-- A row of the `saved_queries` table (`role` is the saver's role). -/
structure SavedQuery where
  id : String
  queryName : String
  queryText : String
  createdBy : String
  role : String
  createdAt : Nat
deriving DecidableEq

/-- The persistent state owned by the storage layer (the tables the claims
touch). -/
structure Store where
  users : List User
  sessions : List UserSession
  connections : List Connection
  savedQueries : List SavedQuery
deriving DecidableEq

/-- `storage.getUserByUsername` (username is a unique column). -/
def getUserByUsername (st : Store) (username : String) : Option User :=
  st.users.find? (fun u => u.username == username)

/-- `storage.getUserById`. -/
def getUserById (st : Store) (id : String) : Option User :=
  st.users.find? (fun u => u.id == id)

/-- `storage.getSessionByToken` (sessionToken is a unique column). -/
def getSessionByToken (st : Store) (token : String) : Option UserSession :=
  st.sessions.find? (fun s => s.sessionToken == token)

/-- `storage.createSession`: insert a new session row. -/
def createSession (st : Store) (userId sessionToken : String) (expiresAt : Nat)
    (freshId : String) (now : Nat) : Store :=
  { st with sessions := st.sessions ++
      [{ id := freshId, userId := userId, sessionToken := sessionToken,
         expiresAt := expiresAt, createdAt := now }] }

/-- `storage.deleteSession`: delete by token; the Bool is `rowCount > 0`. -/
def deleteSession (st : Store) (token : String) : Bool × Store :=
  (st.sessions.any (fun s => s.sessionToken == token),
   { st with sessions := st.sessions.filter (fun s => !(s.sessionToken == token)) })

/-! ## AuthService (server/services/auth.ts) -/

/-- 24 hours, the `SESSION_DURATION_HOURS` constant, in milliseconds. -/
def sessionDurationMs : Nat := 24 * 60 * 60 * 1000

/-- `AuthService.login`. `verify` stands for `bcrypt.compare`; `freshToken`
and `freshId` stand for the generated UUIDs. A thrown `Error` is modelled
as `Except.error` carrying the thrown message. -/
def login (st : Store) (verify : String → String → Bool)
    (freshToken freshId : String) (now : Nat)
    (username password : String) : Except String (User × String × Store) :=
  match getUserByUsername st username with
  | none => .error ("Invalid username or password")
  | some user =>
    if !user.isActive then .error ("User account is disabled")
    else if !(verify password user.passwordHash) then
      .error ("Invalid username or password")
    else
      .ok (user, freshToken,
        createSession st user.id freshToken (now + sessionDurationMs) freshId now)

/-- `AuthService.validateSession`. The empty token models a JS falsy token;
the returned `Store` carries the opportunistic deletion of an expired row. -/
def validateSession (st : Store) (now : Nat) (sessionToken : String) :
    Option User × Store :=
  if sessionToken == "" then (none, st)
  else
    match getSessionByToken st sessionToken with
    | none => (none, st)
    | some session =>
      if session.expiresAt < now then (none, (deleteSession st sessionToken).2)
      else
        match getUserById st session.userId with
        | none => (none, st)
        | some user => if !user.isActive then (none, st) else (some user, st)

/-- `AuthService.logout`: just `storage.deleteSession`. -/
def logout (st : Store) (sessionToken : String) : Bool × Store :=
  deleteSession st sessionToken

/-- The four action literals accepted by `hasPermission`. -/
inductive Action
  | CREATE_USER
  | MANAGE_CONNECTIONS
  | EXECUTE_QUERY
  | READ_ONLY_QUERY
deriving DecidableEq

/-- `AuthService.hasPermission`: the switch on `user.role`. -/
def hasPermission (user : User) (action : Action) : Bool :=
  if user.role == "admin" then true
  else if user.role == "developer" then
    action == Action.EXECUTE_QUERY || action == Action.READ_ONLY_QUERY ||
      action == Action.MANAGE_CONNECTIONS
  else if user.role == "business_user" then action == Action.READ_ONLY_QUERY
  else false

/-! ## Query-execution gate (middleware/auth.ts and the execute route) -/

/-- The four ways `validateQueryPermissions` can leave the request. -/
inductive GateOutcome
  | authRequired
  | queryRequired
  | readOnlyRequired
  | proceed
deriving DecidableEq

/-- `validateQueryPermissions` middleware: 401 without a user, 400 for a
missing or empty (JS-falsy) query, 403 for a business user whose query the
classifier rejects, otherwise pass through to the handler. -/
def validateQueryPermissions (user : Option User) (query : Option String) :
    GateOutcome :=
  match user with
  | none => GateOutcome.authRequired
  | some u =>
    match query with
    | none => GateOutcome.queryRequired
    | some q =>
      if q == "" then GateOutcome.queryRequired
      else if u.role == "business_user" && !isReadOnlyQuery q then
        GateOutcome.readOnlyRequired
      else GateOutcome.proceed

/-- The observable outcome of POST /api/query/execute: HTTP status, the
machine-readable code (when the response carries one), and whether the
handler reached `databaseService.executeQuery` (database I/O). -/
structure ExecResponse where
  status : Nat
  code : Option String
  dbTouched : Bool
deriving DecidableEq

/-- POST /api/query/execute: the middleware runs first; only `proceed`
reaches the handler, which 400s on a missing id, 404s on an unknown
connection, and otherwise executes against the database. -/
def postQueryExecute (st : Store) (user : Option User)
    (connectionId : Option String) (query : Option String) : ExecResponse :=
  match validateQueryPermissions user query with
  | GateOutcome.authRequired =>
    { status := 401, code := some ("AUTH_REQUIRED"), dbTouched := false }
  | GateOutcome.queryRequired =>
    { status := 400, code := some ("QUERY_REQUIRED"), dbTouched := false }
  | GateOutcome.readOnlyRequired =>
    { status := 403, code := some ("READ_ONLY_REQUIRED"), dbTouched := false }
  | GateOutcome.proceed =>
    match connectionId, query with
    | some cid, some q =>
      if cid == "" || q == "" then { status := 400, code := none, dbTouched := false }
      else
        match st.connections.find? (fun c => c.id == cid) with
        | none => { status := 404, code := none, dbTouched := false }
        | some _ => { status := 200, code := none, dbTouched := true }
    | _, _ => { status := 400, code := none, dbTouched := false }

/-- C3: `hasPermission` is a pure function of the role and the action — users
with equal roles get equal answers — and realizes exactly the section 4.2
table: admin everything; developer exactly MANAGE_CONNECTIONS,
EXECUTE_QUERY, READ_ONLY_QUERY; business_user exactly READ_ONLY_QUERY; any
other role value nothing. -/
theorem C3_theorem :
    (∀ (u v : User) (a : Action), u.role = v.role →
      hasPermission u a = hasPermission v a) ∧
    (∀ u : User, u.role = "admin" → ∀ a : Action, hasPermission u a = true) ∧
    (∀ u : User, u.role = "developer" →
      hasPermission u Action.CREATE_USER = false ∧
      hasPermission u Action.MANAGE_CONNECTIONS = true ∧
      hasPermission u Action.EXECUTE_QUERY = true ∧
      hasPermission u Action.READ_ONLY_QUERY = true) ∧
    (∀ u : User, u.role = "business_user" →
      hasPermission u Action.CREATE_USER = false ∧
      hasPermission u Action.MANAGE_CONNECTIONS = false ∧
      hasPermission u Action.EXECUTE_QUERY = false ∧
      hasPermission u Action.READ_ONLY_QUERY = true) ∧
    (∀ u : User, u.role ≠ "admin" → u.role ≠ "developer" →
      u.role ≠ "business_user" → ∀ a : Action, hasPermission u a = false) := by
  refine ⟨?_, ?_, ?_, ?_, ?_⟩
  · intro u v a h
    simp [hasPermission, h]
  · intro u h a
    simp [hasPermission, h]
  · intro u h
    unfold hasPermission
    rw [h]
    decide
  · intro u h
    unfold hasPermission
    rw [h]
    decide
  · intro u h1 h2 h3 a
    have e1 : (u.role == "admin") = false := beq_eq_false_iff_ne.mpr h1
    have e2 : (u.role == "developer") = false := beq_eq_false_iff_ne.mpr h2
    have e3 : (u.role == "business_user") = false := beq_eq_false_iff_ne.mpr h3
    simp [hasPermission, e1, e2, e3]

/-- C3 (witness): the table instantiated at one user per role, including an
unknown role that gets nothing. -/
theorem C3_witness :
    hasPermission ⟨("u1"), ("a"), ("h"), ("admin"), true, 0, 0⟩ Action.CREATE_USER = true ∧
    hasPermission ⟨("u2"), ("d"), ("h"), ("developer"), true, 0, 0⟩ Action.CREATE_USER = false ∧
    hasPermission ⟨("u3"), ("b"), ("h"), ("business_user"), true, 0, 0⟩ Action.READ_ONLY_QUERY = true ∧
    hasPermission ⟨("u4"), ("g"), ("h"), ("guest"), true, 0, 0⟩ Action.READ_ONLY_QUERY = false :=
  ⟨C3_theorem.2.1 _ rfl Action.CREATE_USER,
   (C3_theorem.2.2.1 _ rfl).1,
   (C3_theorem.2.2.2.1 _ rfl).2.2.2,
   C3_theorem.2.2.2.2 _ (by decide) (by decide) (by decide) Action.READ_ONLY_QUERY⟩

/-- C1 (counterexample): a business user submitting the empty query string —
which the classifier judges not read-only — is rejected with HTTP 400 and
code QUERY_REQUIRED by the middleware, not with the claimed HTTP 403 and
code READ_ONLY_REQUIRED. -/
theorem C1_counterexample :
    isReadOnlyQuery ("") = false ∧
    postQueryExecute ⟨[], [], [], []⟩
      (some ⟨("u1"), ("bu"), ("h"), ("business_user"), true, 0, 0⟩)
      (some ("c1")) (some ("")) =
      { status := 400, code := some ("QUERY_REQUIRED"), dbTouched := false } := by
  decide

/-- C1 (amended): for an authenticated POST /api/query/execute carrying a
non-empty query, a business_user whose SQL the classifier judges not
read-only is rejected with HTTP 403 and code READ_ONLY_REQUIRED before any
database I/O; for an admin or developer the middleware always passes the
request through, whatever the query, so no read-only restriction applies.
A missing or empty query is instead rejected with 400 QUERY_REQUIRED. -/
theorem C1_theorem :
    (∀ (st : Store) (u : User) (cid : Option String) (q : String),
      u.role = "business_user" → q ≠ "" → isReadOnlyQuery q = false →
      postQueryExecute st (some u) cid (some q) =
        { status := 403, code := some ("READ_ONLY_REQUIRED"), dbTouched := false }) ∧
    (∀ (u : User) (q : String),
      (u.role = "admin" ∨ u.role = "developer") → q ≠ "" →
      validateQueryPermissions (some u) (some q) = GateOutcome.proceed) := by
  constructor
  · intro st u cid q hrole hq hro
    have hq2 : (q == "") = false := beq_eq_false_iff_ne.mpr hq
    unfold postQueryExecute validateQueryPermissions
    simp [hq2, hrole, hro]
  · intro u q hrole hq
    have hq2 : (q == "") = false := beq_eq_false_iff_ne.mpr hq
    unfold validateQueryPermissions
    rcases hrole with h | h <;> simp [hq2, h]

/-- C1 (witness): a business user submitting DELETE gets the 403 with
READ_ONLY_REQUIRED and no database I/O; an admin submitting DROP passes the
gate. -/
theorem C1_witness :
    postQueryExecute ⟨[], [], [], []⟩
      (some ⟨("u1"), ("bu"), ("h"), ("business_user"), true, 0, 0⟩)
      (some ("c1")) (some ("DELETE FROM t")) =
      { status := 403, code := some ("READ_ONLY_REQUIRED"), dbTouched := false } ∧
    validateQueryPermissions
      (some ⟨("u2"), ("root"), ("h"), ("admin"), true, 0, 0⟩)
      (some ("DROP TABLE t")) = GateOutcome.proceed :=
  ⟨C1_theorem.1 _ _ _ _ rfl (by decide) (by decide),
   C1_theorem.2 _ _ (Or.inl rfl) (by decide)⟩

/-- POST /api/auth/logout: `authenticateUser` validates the cookie token and
attaches the user; `requireAuth` answers 401 AUTH_REQUIRED without one; the
handler then logs out the cookie token — ignoring the deletion result —
clears the cookie and reports success. -/
def postLogout (st : Store) (now : Nat) (cookieToken : String) :
    (Nat × String) × Store :=
  let auth := validateSession st now cookieToken
  match auth.1 with
  | none => ((401, "AUTH_REQUIRED"), auth.2)
  | some _ =>
    if cookieToken == "" then ((200, "Logout successful"), auth.2)
    else ((200, "Logout successful"), (logout auth.2 cookieToken).2)

/-- C4 (counterexample): a login that fails because the account is inactive
throws "User account is disabled", while one that fails because the
username is unknown throws "Invalid username or password" — two failing
runs differing only in the cause are distinguishable, refuting the claim
that all three causes look identical. -/
theorem C4_counterexample :
    login ⟨[⟨("u2"), ("bob"), ("pw2"), ("developer"), false, 0, 0⟩], [], [], []⟩
      (fun p h => p == h) ("t") ("i") 0 ("bob") ("x") =
      Except.error ("User account is disabled") ∧
    login ⟨[⟨("u2"), ("bob"), ("pw2"), ("developer"), false, 0, 0⟩], [], [], []⟩
      (fun p h => p == h) ("t") ("i") 0 ("carol") ("x") =
      Except.error ("Invalid username or password") ∧
    ("User account is disabled" : String) ≠ ("Invalid username or password") :=
  ⟨rfl, rfl, by decide⟩

/-- C4 (amended): an unknown username and a password mismatch produce the
identical error "Invalid username or password" (no enumeration between
those two causes), but an inactive account produces the distinct error
"User account is disabled", and does so before the password is checked. -/
theorem C4_theorem :
    ∀ (st : Store) (verify : String → String → Bool) (ft fi : String) (now : Nat)
      (username password : String),
    (getUserByUsername st username = none →
      login st verify ft fi now username password =
        Except.error ("Invalid username or password")) ∧
    (∀ user : User, getUserByUsername st username = some user →
      user.isActive = true → verify password user.passwordHash = false →
      login st verify ft fi now username password =
        Except.error ("Invalid username or password")) ∧
    (∀ user : User, getUserByUsername st username = some user →
      user.isActive = false →
      login st verify ft fi now username password =
        Except.error ("User account is disabled")) := by
  intro st verify ft fi now username password
  refine ⟨?_, ?_, ?_⟩
  · intro h
    unfold login
    rw [h]
  · intro user h ha hv
    unfold login
    rw [h]
    simp [ha, hv]
  · intro user h ha
    unfold login
    rw [h]
    simp [ha]

/-- C4 (witness): the inactive-account arm of the amended statement
instantiated at a one-user store. -/
theorem C4_witness :
    login ⟨[⟨("u2"), ("bob"), ("pw2"), ("developer"), false, 0, 0⟩], [], [], []⟩
      (fun p h => p == h) ("t") ("i") 0 ("bob") ("x") =
      Except.error ("User account is disabled") :=
  (C4_theorem _ _ _ _ _ _ _).2.2
    ⟨("u2"), ("bob"), ("pw2"), ("developer"), false, 0, 0⟩ (by decide) (by decide)

/-- C6: `validateSession` returns no user exactly when the token is absent
(JS-falsy), matches no stored session, the matching session is expired — in
which case that row is deleted from the store as a side effect — or the
owning account is inactive; when the session is live and its owner active
it returns the owner and leaves the store unchanged. The final
biconditional assumes every stored session's userId resolves to a stored
user, the referential integrity the schema enforces through the NOT NULL
REFERENCES constraint on user_sessions.userId. -/
theorem C6_theorem :
    ∀ (st : Store) (now : Nat) (token : String),
    (token = "" → validateSession st now token = (none, st)) ∧
    (getSessionByToken st token = none → validateSession st now token = (none, st)) ∧
    (∀ sess : UserSession, token ≠ "" → getSessionByToken st token = some sess →
      sess.expiresAt < now →
      validateSession st now token = (none, (deleteSession st token).2)) ∧
    (∀ (sess : UserSession) (u : User), token ≠ "" →
      getSessionByToken st token = some sess → ¬ sess.expiresAt < now →
      getUserById st sess.userId = some u → u.isActive = false →
      validateSession st now token = (none, st)) ∧
    (∀ (sess : UserSession) (u : User), token ≠ "" →
      getSessionByToken st token = some sess → ¬ sess.expiresAt < now →
      getUserById st sess.userId = some u → u.isActive = true →
      validateSession st now token = (some u, st)) ∧
    ((∀ sess : UserSession, getSessionByToken st token = some sess →
        ∃ u : User, getUserById st sess.userId = some u) →
      ((validateSession st now token).1 = none ↔
        token = "" ∨ getSessionByToken st token = none ∨
        (∃ sess : UserSession, getSessionByToken st token = some sess ∧
          sess.expiresAt < now) ∨
        (∃ (sess : UserSession) (u : User),
          getSessionByToken st token = some sess ∧ ¬ sess.expiresAt < now ∧
          getUserById st sess.userId = some u ∧ u.isActive = false))) := by
  intro st now token
  refine ⟨?_, ?_, ?_, ?_, ?_, ?_⟩
  · intro h
    simp [validateSession, h]
  · intro h
    by_cases ht : (token == "") = true
    · simp [validateSession, ht]
    · simp [validateSession, ht, h]
  · intro sess ht h hexp
    have ht2 : (token == "") = false := beq_eq_false_iff_ne.mpr ht
    simp [validateSession, ht2, h, hexp]
  · intro sess u ht h hexp hu hact
    have ht2 : (token == "") = false := beq_eq_false_iff_ne.mpr ht
    simp [validateSession, ht2, h, hexp, hu, hact]
  · intro sess u ht h hexp hu hact
    have ht2 : (token == "") = false := beq_eq_false_iff_ne.mpr ht
    simp [validateSession, ht2, h, hexp, hu, hact]
  · intro hFK
    constructor
    · intro hres
      by_cases ht : (token == "") = true
      · exact Or.inl (by simpa using ht)
      · cases hs : getSessionByToken st token with
        | none => exact Or.inr (Or.inl rfl)
        | some sess =>
          by_cases hexp : sess.expiresAt < now
          · exact Or.inr (Or.inr (Or.inl ⟨sess, rfl, hexp⟩))
          · obtain ⟨u, hu⟩ := hFK sess hs
            by_cases hact : u.isActive = true
            · rw [show validateSession st now token = (some u, st) by
                simp [validateSession, ht, hs, hexp, hu, hact]] at hres
              exact absurd hres (by simp)
            · have hact2 : u.isActive = false := by
                simpa using hact
              exact Or.inr (Or.inr (Or.inr ⟨sess, u, rfl, hexp, hu, hact2⟩))
    · intro hcases
      rcases hcases with h | h | h | h
      · simp [validateSession, h]
      · by_cases ht : (token == "") = true
        · simp [validateSession, ht]
        · simp [validateSession, ht, h]
      · obtain ⟨sess, hs, hexp⟩ := h
        by_cases ht : (token == "") = true
        · simp [validateSession, ht]
        · simp [validateSession, ht, hs, hexp]
      · obtain ⟨sess, u, hs, hexp, hu, hact⟩ := h
        by_cases ht : (token == "") = true
        · simp [validateSession, ht]
        · simp [validateSession, ht, hs, hexp, hu, hact]

/-- C6 (witness): the live-session arm and the expired-session arm
instantiated at a concrete store: an unexpired session returns its active
owner with the store untouched; an expired one returns no user and deletes
the session row. -/
theorem C6_witness :
    validateSession
      ⟨[⟨("u1"), ("alice"), ("pw"), ("admin"), true, 0, 0⟩],
       [⟨("s1"), ("u1"), ("t"), 100, 0⟩], [], []⟩ 50 ("t") =
      (some ⟨("u1"), ("alice"), ("pw"), ("admin"), true, 0, 0⟩,
       ⟨[⟨("u1"), ("alice"), ("pw"), ("admin"), true, 0, 0⟩],
        [⟨("s1"), ("u1"), ("t"), 100, 0⟩], [], []⟩) ∧
    validateSession
      ⟨[⟨("u1"), ("alice"), ("pw"), ("admin"), true, 0, 0⟩],
       [⟨("s1"), ("u1"), ("t"), 100, 0⟩], [], []⟩ 200 ("t") =
      (none,
       ⟨[⟨("u1"), ("alice"), ("pw"), ("admin"), true, 0, 0⟩], [], [], []⟩) :=
  ⟨((C6_theorem _ 50 _).2.2.2.2.1 ⟨("s1"), ("u1"), ("t"), 100, 0⟩
      ⟨("u1"), ("alice"), ("pw"), ("admin"), true, 0, 0⟩
      (by decide) (by decide) (by decide) (by decide) (by decide)),
   ((C6_theorem _ 200 _).2.2.1 ⟨("s1"), ("u1"), ("t"), 100, 0⟩
      (by decide) (by decide) (by decide))⟩

/-- C8 (counterexample): with one stored session, the first logout reports
true while a repeat logout of the same token reports false, and over HTTP
the first call answers 200 "Logout successful" while the repeat call is
rejected 401 AUTH_REQUIRED — running logout twice is observably different
from running it once. -/
theorem C8_counterexample :
    (logout ⟨[⟨("u1"), ("alice"), ("pw"), ("admin"), true, 0, 0⟩],
       [⟨("s1"), ("u1"), ("t"), 100, 0⟩], [], []⟩ ("t")).1 = true ∧
    (logout (logout ⟨[⟨("u1"), ("alice"), ("pw"), ("admin"), true, 0, 0⟩],
       [⟨("s1"), ("u1"), ("t"), 100, 0⟩], [], []⟩ ("t")).2 ("t")).1 = false ∧
    (postLogout ⟨[⟨("u1"), ("alice"), ("pw"), ("admin"), true, 0, 0⟩],
       [⟨("s1"), ("u1"), ("t"), 100, 0⟩], [], []⟩ 0 ("t")).1 =
      (200, "Logout successful") ∧
    (postLogout (postLogout ⟨[⟨("u1"), ("alice"), ("pw"), ("admin"), true, 0, 0⟩],
       [⟨("s1"), ("u1"), ("t"), 100, 0⟩], [], []⟩ 0 ("t")).2 0 ("t")).1 =
      (401, "AUTH_REQUIRED") := by
  decide

/-- C8 (amended): logout's effect on the session store is idempotent —
running it twice leaves exactly the store of running it once — and the HTTP
handler reports the same success response whenever it runs, regardless of
whether the deletion removed anything; but the service-level return value
is true only for a first deletion (a repeat always returns false), and a
repeat HTTP call fails authentication with 401, so the caller can
distinguish the already-gone case. -/
theorem C8_theorem :
    (∀ (st : Store) (t : String), (logout (logout st t).2 t).2 = (logout st t).2) ∧
    (∀ (st : Store) (t : String), (logout (logout st t).2 t).1 = false) ∧
    (∀ (st : Store) (now : Nat) (t : String) (u : User),
      (validateSession st now t).1 = some u →
      (postLogout st now t).1 = (200, "Logout successful")) := by
  refine ⟨?_, ?_, ?_⟩
  · intro st t
    simp [logout, deleteSession, List.filter_filter]
  · intro st t
    rw [Bool.eq_false_iff]
    intro hcon
    simp only [logout, deleteSession, List.any_eq_true] at hcon
    obtain ⟨x, hx, hxt⟩ := hcon
    rw [List.mem_filter] at hx
    simp [hxt] at hx
  · intro st now t u h
    simp [postLogout, h, apply_ite]

/-- C8 (witness): the success-response arm of the amended statement
instantiated at a store with one live session. -/
theorem C8_witness :
    (postLogout ⟨[⟨("u1"), ("alice"), ("pw"), ("admin"), true, 0, 0⟩],
       [⟨("s1"), ("u1"), ("t"), 100, 0⟩], [], []⟩ 0 ("t")).1 =
      (200, "Logout successful") :=
  C8_theorem.2.2 _ 0 _ ⟨("u1"), ("alice"), ("pw"), ("admin"), true, 0, 0⟩ (by decide)

/-! ## Connection storage (PostgreSQLStorage, connection rows) -/

/-- The insertable columns of `connections` (`insertConnectionSchema` omits
id and createdAt); `ssl` and `isActive` may be absent and then default to
false, as in the table schema. -/
structure InsertConnection where
  name : String
  type : String
  host : String
  port : Nat
  database : String
  username : String
  password : String
  ssl : Option Bool
  isActive : Option Bool
deriving DecidableEq

/-- `storage.createConnection`: insert one row with the schema defaults. -/
def createConnection (st : Store) (freshId : String) (now : Nat)
    (ic : InsertConnection) : Store :=
  { st with connections := st.connections ++
      [{ id := freshId, name := ic.name, type := ic.type, host := ic.host,
         port := ic.port, database := ic.database, username := ic.username,
         password := ic.password, ssl := ic.ssl.getD false,
         isActive := ic.isActive.getD false, createdAt := now }] }

/-- A partial update of a connection row (a TS Partial of the insert type). -/
structure ConnectionPatch where
  name : Option String
  type : Option String
  host : Option String
  port : Option Nat
  database : Option String
  username : Option String
  password : Option String
  ssl : Option Bool
  isActive : Option Bool
deriving DecidableEq

/-- Apply the given columns of a patch over an existing row. -/
def applyPatch (p : ConnectionPatch) (c : Connection) : Connection :=
  { c with
    name := p.name.getD c.name,
    type := p.type.getD c.type,
    host := p.host.getD c.host,
    port := p.port.getD c.port,
    database := p.database.getD c.database,
    username := p.username.getD c.username,
    password := p.password.getD c.password,
    ssl := p.ssl.getD c.ssl,
    isActive := p.isActive.getD c.isActive }

/-- `storage.updateConnection`: set the given columns on the row with this id. -/
def updateConnection (st : Store) (id : String) (p : ConnectionPatch) : Store :=
  { st with connections :=
      st.connections.map (fun c => if c.id == id then applyPatch p c else c) }

/-- `storage.setActiveConnection`: first an UPDATE setting every row
inactive, then an UPDATE setting the row with this id active. -/
def setActiveConnection (st : Store) (id : String) : Store :=
  let cleared :=
    { st with
      connections := st.connections.map (fun c : Connection => { c with isActive := false }) }
  { cleared with
    connections :=
      cleared.connections.map
        (fun c : Connection => if c.id == id then { c with isActive := true } else c) }

/-- How many stored connection profiles are currently active. -/
def countActive (st : Store) : Nat :=
  st.connections.countP (fun c => c.isActive)

theorem setActive_connections (st : Store) (id : String) :
    (setActiveConnection st id).connections =
      st.connections.map (fun c =>
        if c.id == id then { c with isActive := true }
        else { c with isActive := false }) := by
  unfold setActiveConnection
  simp only [List.map_map]
  have hfun :
      ((fun c : Connection => if c.id == id then { c with isActive := true } else c) ∘
        (fun c : Connection => { c with isActive := false })) =
      (fun c : Connection =>
        if c.id == id then { c with isActive := true }
        else { c with isActive := false }) := by
    funext c
    by_cases hc : (c.id == id) = true
    · simp [Function.comp, hc]
    · simp [Function.comp, hc]
  rw [hfun]

/-- C5 (counterexample): `createConnection` inserts whatever `isActive` value
the caller supplies, so inserting two profiles with isActive true yields a
store with two active profiles — the exactly-one-active invariant is not
preserved by every storage operation. -/
theorem C5_counterexample :
    countActive (createConnection (createConnection ⟨[], [], [], []⟩ ("A") 0
      ⟨("c1"), ("mysql"), ("h"), 3306, ("d"), ("u"), ("p"), some false, some true⟩) ("B") 0
      ⟨("c2"), ("mysql"), ("h"), 3306, ("d"), ("u"), ("p"), some false, some true⟩) = 2 := by
  decide

/-- C5 (amended): after `setActiveConnection(B)` for an id B occurring on
exactly one stored profile, exactly one profile is active, namely B — in
particular activate(B) after activate(A) leaves B the single active row;
but the invariant is not maintained by every operation: createConnection
(and updateConnection) can insert or flip isActive freely, and activating
an id with no matching row leaves zero active profiles. -/
theorem C5_theorem :
    ∀ (st : Store) (id : String),
      st.connections.countP (fun c => c.id == id) = 1 →
      countActive (setActiveConnection st id) = 1 ∧
      ∀ c ∈ (setActiveConnection st id).connections, c.isActive = true → c.id = id := by
  intro st id h
  constructor
  · unfold countActive
    rw [setActive_connections, List.countP_map]
    have hfun :
        ((fun c : Connection => c.isActive) ∘ (fun c : Connection =>
          if c.id == id then { c with isActive := true }
          else { c with isActive := false })) = (fun c : Connection => c.id == id) := by
      funext c
      by_cases hc : (c.id == id) = true
      · simp [Function.comp, hc]
      · simp [Function.comp, hc]
    rw [hfun, h]
  · intro c hc hact
    rw [setActive_connections] at hc
    rw [List.mem_map] at hc
    obtain ⟨c0, hc0, rfl⟩ := hc
    by_cases h0 : (c0.id == id) = true
    · rw [if_pos h0]
      exact beq_iff_eq.mp h0
    · rw [if_neg h0] at hact
      exact absurd hact (by simp)

/-- C5 (witness): activating B after activating A in a two-profile store
leaves exactly one active profile, and every active profile is B. -/
theorem C5_witness :
    countActive (setActiveConnection (setActiveConnection
      ⟨[], [], [⟨("A"), ("one"), ("mysql"), ("h"), 1, ("d"), ("u"), ("p"), false, false, 0⟩,
        ⟨("B"), ("two"), ("mysql"), ("h"), 1, ("d"), ("u"), ("p"), false, false, 0⟩], []⟩
      ("A")) ("B")) = 1 :=
  (C5_theorem _ ("B") (by decide)).1

/-! ## Saved queries (routes for /api/saved-queries) -/

/-- The role gate of GET /api/saved-queries/:id: business_user only their own
rows, developer only rows saved with role developer, admin any row whose
saved role is one of the three roles. -/
def savedQueryReadAccess (u : User) (q : SavedQuery) : Bool :=
  if u.role == "business_user" then q.createdBy == u.id
  else if u.role == "developer" then q.role == "developer"
  else if u.role == "admin" then
    q.role == "business_user" || q.role == "developer" || q.role == "admin"
  else false

/-- GET /api/saved-queries/:id — 404 when the id is unknown, 403 when the
role gate denies, 200 with the row otherwise. -/
def getSavedQueryRoute (st : Store) (u : User) (qid : String) :
    Nat × Option SavedQuery :=
  match st.savedQueries.find? (fun q => q.id == qid) with
  | none => (404, none)
  | some q => if savedQueryReadAccess u q then (200, some q) else (403, none)

/-- Modelled from the spec: the storage implementation of
`deleteSavedQuery(queryId, userId)` is missing from the sources (only its
caller in the routes is present); per the spec — "Delete is always
restricted to the creator regardless of role" — it deletes the row only
when `userId` created it, reporting whether a row was deleted. -/
def deleteSavedQuery (st : Store) (qid userId : String) : Bool × Store :=
  (st.savedQueries.any (fun q => q.id == qid && q.createdBy == userId),
   { st with savedQueries :=
      st.savedQueries.filter (fun q => !(q.id == qid && q.createdBy == userId)) })

/-- C7: read access to a saved query is granted to a business_user iff they
created the row, to a developer iff the row was saved with role developer,
to an admin iff the saved role is one of business_user, developer, admin,
and to nobody else; deletion succeeds iff the requester created a row with
that id, with the requester's role playing no part. -/
theorem C7_theorem :
    (∀ (u : User) (q : SavedQuery),
      (u.role = "business_user" →
        (savedQueryReadAccess u q = true ↔ q.createdBy = u.id)) ∧
      (u.role = "developer" →
        (savedQueryReadAccess u q = true ↔ q.role = "developer")) ∧
      (u.role = "admin" →
        (savedQueryReadAccess u q = true ↔
          q.role = "business_user" ∨ q.role = "developer" ∨ q.role = "admin")) ∧
      (u.role ≠ "business_user" → u.role ≠ "developer" → u.role ≠ "admin" →
        savedQueryReadAccess u q = false)) ∧
    (∀ (st : Store) (qid userId : String),
      (deleteSavedQuery st qid userId).1 = true ↔
        ∃ q ∈ st.savedQueries, q.id = qid ∧ q.createdBy = userId) := by
  constructor
  · intro u q
    refine ⟨?_, ?_, ?_, ?_⟩
    · intro h
      simp [savedQueryReadAccess, h]
    · intro h
      simp [savedQueryReadAccess, h]
    · intro h
      simp [savedQueryReadAccess, h, or_assoc]
    · intro h1 h2 h3
      have e1 : (u.role == "business_user") = false := beq_eq_false_iff_ne.mpr h1
      have e2 : (u.role == "developer") = false := beq_eq_false_iff_ne.mpr h2
      have e3 : (u.role == "admin") = false := beq_eq_false_iff_ne.mpr h3
      simp [savedQueryReadAccess, e1, e2, e3]
  · intro st qid userId
    simp [deleteSavedQuery, List.any_eq_true]

/-- C7 (witness): a business_user reads their own saved row, and deleting a
row by its creator succeeds. -/
theorem C7_witness :
    savedQueryReadAccess ⟨("u3"), ("b"), ("h"), ("business_user"), true, 0, 0⟩
      ⟨("q1"), ("n"), ("SELECT 1"), ("u3"), ("business_user"), 0⟩ = true ∧
    (deleteSavedQuery
      ⟨[], [], [], [⟨("q1"), ("n"), ("SELECT 1"), ("u3"), ("business_user"), 0⟩]⟩
      ("q1") ("u3")).1 = true :=
  ⟨((C7_theorem.1 _ _).1 rfl).mpr rfl,
   (C7_theorem.2 _ ("q1") ("u3")).mpr
     ⟨⟨("q1"), ("n"), ("SELECT 1"), ("u3"), ("business_user"), 0⟩,
      by decide, rfl, rfl⟩⟩

/-! ## Response bodies that must not carry secrets (routes.ts) -/

/-- A user as serialized in response bodies: the destructuring
`const { passwordHash, ...userInfo } = user` keeps every column except the
hash. -/
structure SafeUser where
  id : String
  username : String
  role : String
  isActive : Bool
  createdAt : Nat
  updatedAt : Nat
deriving DecidableEq

/-- Drop the passwordHash field. -/
def toSafeUser (u : User) : SafeUser :=
  ⟨u.id, u.username, u.role, u.isActive, u.createdAt, u.updatedAt⟩

/-- A connection as serialized by GET /api/connections: the handler spreads
the row and sets `password: undefined`, and `res.json` omits
undefined-valued keys, so the body carries every column except password. -/
structure SafeConnection where
  id : String
  name : String
  type : String
  host : String
  port : Nat
  database : String
  username : String
  ssl : Bool
  isActive : Bool
  createdAt : Nat
deriving DecidableEq

/-- Drop the password field. -/
def toSafeConnection (c : Connection) : SafeConnection :=
  ⟨c.id, c.name, c.type, c.host, c.port, c.database, c.username, c.ssl,
   c.isActive, c.createdAt⟩

/-- The user object in the POST /api/auth/login success body. -/
def loginBody (u : User) : SafeUser := toSafeUser u

/-- The user object in the GET /api/auth/me body. -/
def meBody (u : User) : SafeUser := toSafeUser u

/-- The user object in the POST /api/users success body. -/
def createUserBody (u : User) : SafeUser := toSafeUser u

/-- The GET /api/users body: every stored user, hashes removed. -/
def listUsersBody (st : Store) : List SafeUser :=
  st.users.map toSafeUser

/-- The GET /api/connections body: every stored connection, passwords
removed. -/
def listConnectionsBody (st : Store) : List SafeConnection :=
  st.connections.map toSafeConnection

/-- C10: no stored secret reaches a response body — every user object any of
the four user-returning endpoints serializes, and every connection object
GET /api/connections serializes, is unchanged under arbitrary rewriting of
the stored passwordHash and password values, so response bodies are
identical whatever secrets storage holds. -/
theorem C10_theorem :
    (∀ (u : User) (h : String), loginBody { u with passwordHash := h } = loginBody u) ∧
    (∀ (u : User) (h : String), meBody { u with passwordHash := h } = meBody u) ∧
    (∀ (u : User) (h : String),
      createUserBody { u with passwordHash := h } = createUserBody u) ∧
    (∀ (st : Store) (f : User → String),
      listUsersBody
        { st with users := st.users.map (fun u => { u with passwordHash := f u }) } =
      listUsersBody st) ∧
    (∀ (st : Store) (g : Connection → String),
      listConnectionsBody
        { st with
          connections := st.connections.map (fun c => { c with password := g c }) } =
      listConnectionsBody st) := by
  refine ⟨?_, ?_, ?_, ?_, ?_⟩
  · intro u h
    rfl
  · intro u h
    rfl
  · intro u h
    rfl
  · intro st f
    unfold listUsersBody
    rw [List.map_map]
    rfl
  · intro st g
    unfold listConnectionsBody
    rw [List.map_map]
    rfl

/-! ## Pagination rewriting (DatabaseService.addPaginationToQuery) -/

/-- ASCII digit, the regex class `\d`. -/
def isDigitCh (c : Char) : Bool := '0' ≤ c && c ≤ '9'

/-- After the first whitespace of `\s+\d+`: skip further whitespace; the
next character must be a digit. -/
def afterSpacesDigit : List Char → Bool
  | [] => false
  | c :: rest => if isJsSpace c then afterSpacesDigit rest else isDigitCh c

/-- The `\s+\d+` tail of the LIMIT regex matched at the head of `l`: at
least one whitespace character, then (after any further whitespace) a
digit. -/
def spacesThenDigit : List Char → Bool
  | [] => false
  | c :: rest => isJsSpace c && afterSpacesDigit rest

/-- The word LIMIT, case-insensitively, followed by `\s+\d+`, matched at
the head of `l`. -/
def matchLimitAt : List Char → Bool
  | c1 :: c2 :: c3 :: c4 :: c5 :: rest =>
    upChar c1 == 'L' && upChar c2 == 'I' && upChar c3 == 'M' && upChar c4 == 'I' &&
      upChar c5 == 'T' && spacesThenDigit rest
  | _ => false

/-- Unanchored scan for the LIMIT pattern; the Bool argument carries whether
the previous character was a word character, deciding the leading `\b`. -/
def hasLimitGo : Bool → List Char → Bool
  | _, [] => false
  | prevW, c :: rest => (!prevW && matchLimitAt (c :: rest)) || hasLimitGo (isWordChar c) rest

/-- The case-insensitive test for an existing LIMIT clause:
word boundary, LIMIT, whitespace, digits. -/
def hasLimitClause (l : List Char) : Bool :=
  hasLimitGo false l

/-- The replacement removing one trailing semicolon: the first semicolon
followed only by whitespace up to the end of the string is removed together
with that whitespace; without such a semicolon the string is unchanged. -/
def stripTrailingSemi (l : List Char) : List Char :=
  let core := (l.reverse.dropWhile isJsSpace).reverse
  if core.getLast? == some ';' then core.dropLast else l

/-- `DatabaseService.addPaginationToQuery`. Numbers are modelled as `Int`
(`Number.isInteger` then always holds); a thrown `Error` is `Except.error`
with the thrown message. A query already carrying a LIMIT clause is
returned verbatim with `paginationApplied = false` — before the limit and
offset are even validated, as in the source. -/
def addPaginationToQuery (query : String) (limit offset : Int) :
    Except String (String × Bool) :=
  let trimmed := trimWs query.data
  if hasLimitClause trimmed then Except.ok (query, false)
  else
    let cleanQuery := stripTrailingSemi trimmed
    if limit < 1 || 1000 < limit then Except.error ("Invalid limit parameter")
    else if offset < 0 then Except.error ("Invalid offset parameter")
    else
      Except.ok (String.mk (cleanQuery ++ (" LIMIT ").data ++ (toString limit).data ++
        (if 0 < offset then (" OFFSET ").data ++ (toString offset).data else [])), true)

/-- The optional pagination options of `executeQuery`. -/
structure PaginationOpts where
  limit : Option Int
  offset : Option Int
deriving DecidableEq

/-- The pagination step of `executeMySQLQuery` and `executePostgreSQLQuery`:
only a present, truthy (non-zero) `options.limit` triggers rewriting, with
`limit + 1` requested to probe for more rows and a missing offset read as
0. -/
def enginePagination (query : String) (options : Option PaginationOpts) :
    Except String (String × Bool) :=
  match options with
  | none => Except.ok (query, false)
  | some opts =>
    match opts.limit with
    | none => Except.ok (query, false)
    | some l =>
      if l == 0 then Except.ok (query, false)
      else addPaginationToQuery query (l + 1) (opts.offset.getD 0)

/-- C9: pagination is applied only when requested and the statement has no
LIMIT clause already (checked case-insensitively): a query with a LIMIT
clause is returned verbatim with "pagination not applied", a call without
pagination options never rewrites, and whenever the engine reports
pagination applied, options with a truthy limit were present and the query
had no LIMIT clause; in particular addPagination on "SELECT * FROM t" with
limit 10 and offset 0 appends exactly one " LIMIT 10", while on
"SELECT * FROM t LIMIT 5" it returns the original string unmodified and
reports pagination not applied. -/
theorem C9_theorem :
    (∀ (q : String) (limit offset : Int),
      hasLimitClause (trimWs q.data) = true →
      addPaginationToQuery q limit offset = Except.ok (q, false)) ∧
    (∀ q : String, enginePagination q none = Except.ok (q, false)) ∧
    (∀ (q : String) (opts : PaginationOpts),
      opts.limit = none → enginePagination q (some opts) = Except.ok (q, false)) ∧
    (∀ (q : String) (opts : PaginationOpts) (r : String × Bool),
      enginePagination q (some opts) = Except.ok r → r.2 = true →
      hasLimitClause (trimWs q.data) = false ∧
        ∃ l : Int, opts.limit = some l ∧ ¬ l = 0) ∧
    addPaginationToQuery ("SELECT * FROM t") 10 0 =
      Except.ok (("SELECT * FROM t LIMIT 10"), true) ∧
    addPaginationToQuery ("SELECT * FROM t LIMIT 5") 10 0 =
      Except.ok (("SELECT * FROM t LIMIT 5"), false) := by
  refine ⟨?_, ?_, ?_, ?_, ?_, ?_⟩
  · intro q limit offset h
    simp [addPaginationToQuery, h]
  · intro q
    rfl
  · intro q opts h
    simp [enginePagination, h]
  · intro q opts r he hr2
    cases hl : opts.limit with
    | none =>
      rw [show enginePagination q (some opts) = Except.ok (q, false) from by
        simp [enginePagination, hl]] at he
      injection he with he2
      rw [← he2] at hr2
      simp at hr2
    | some l =>
      by_cases hz : (l == 0) = true
      · rw [show enginePagination q (some opts) = Except.ok (q, false) from by
          simp [enginePagination, hl, hz]] at he
        injection he with he2
        rw [← he2] at hr2
        simp at hr2
      · rw [show enginePagination q (some opts) =
            addPaginationToQuery q (l + 1) (opts.offset.getD 0) from by
          simp [enginePagination, hl, hz]] at he
        by_cases hlim : hasLimitClause (trimWs q.data) = true
        · rw [show addPaginationToQuery q (l + 1) (opts.offset.getD 0) =
              Except.ok (q, false) from by
            simp [addPaginationToQuery, hlim]] at he
          injection he with he2
          rw [← he2] at hr2
          simp at hr2
        · refine ⟨by simpa using hlim, l, rfl, ?_⟩
          intro hq
          rw [hq] at hz
          exact hz (by decide)
  · rfl
  · rfl

/-- C9 (witness): the no-double-pagination arm applied to a query that
already carries a LIMIT clause, and the applied-implies-requested arm
applied to a request that did paginate. -/
theorem C9_witness :
    addPaginationToQuery ("SELECT id FROM t LIMIT 3") 7 0 =
      Except.ok (("SELECT id FROM t LIMIT 3"), false) ∧
    (hasLimitClause (trimWs ("SELECT 1").data) = false ∧
      ∃ l : Int, (PaginationOpts.mk (some 5) (some 0)).limit = some l ∧ ¬ l = 0) :=
  ⟨C9_theorem.1 _ 7 0 (by decide),
   C9_theorem.2.2.2.1 _ (PaginationOpts.mk (some 5) (some 0))
     (("SELECT 1 LIMIT 6"), true) rfl rfl⟩

end CloudSql
